import Mathlib

/-!
Verification of the fake-langbase-api server core.

This file gives a shallow embedding, in Lean 4, of the parts of the
repository that carry the behavioural contracts: the chunk planner and
response synthesizer of `pipes.py`, the SSE stream generator of
`pipes.py`, the pipe request handler of `pipes.py`, the thread/message
store of `threads.py` (together with the status mapping its HTTP
handler applies in `http_handler.py`), and the variable substitution of
`variable_processor.py`.

Strings are modelled as `List Char`; Python text values decoded from
JSON bodies are modelled by the inductive type `JVal`.  Randomness
(`secrets.randbelow`) and environment inputs (`uuid`, `time`) are
modelled as explicit parameters.  Recursions that walk a string are
written with an explicit fuel argument equal to the string length so
that every definition evaluates by kernel reduction.
-/

/-! ## Character classes and elementary string operations -/

/-- the Python regex class `\w` (ASCII fragment): letters, digits, underscore. -/
def isWordChar (c : Char) : Bool := c.isAlphanum || c = '_'

/-- the Python regex class `\s` / `str.strip` whitespace (ASCII fragment):
space, tab, newline, carriage return, vertical tab, form feed. -/
def isSpaceChar (c : Char) : Bool :=
  c = ' ' || c = '\t' || c = '\n' || c = '\x0d' || c = '\x0b' || c = '\x0c'

/-- the Python `str.isalpha` character test (ASCII fragment). -/
def isAlphaChar (c : Char) : Bool := c.isAlpha

/-- ASCII lower-casing of one character, modelling `str.lower`. -/
def lowerChar (c : Char) : Char :=
  if 'A' ≤ c && c ≤ 'Z' then Char.ofNat (c.toNat + 32) else c

/-- ASCII lower-casing of a string, modelling `str.lower`. -/
def lowerStr (s : List Char) : List Char := s.map lowerChar

/-- Substring test, modelling the Python `needle in haystack` on strings. -/
def occurs (pat : List Char) : List Char → Bool
  | [] => pat.isEmpty
  | c :: t => pat.isPrefixOf (c :: t) || occurs pat t

/-- Helper for `wordCount`: counts maximal non-whitespace runs, carrying
whether the previous character was part of a run. -/
def wordCountAux : Bool → List Char → Nat
  | _, [] => 0
  | prev, c :: rest =>
    let cur := !(isSpaceChar c)
    (if cur && !prev then 1 else 0) + wordCountAux cur rest

/-- Number of whitespace-delimited words, modelling `len(s.split())`. -/
def wordCount (s : List Char) : Nat := wordCountAux false s

/-- Association-list field lookup, modelling Python `dict` access for
string-keyed dictionaries (keys of a decoded JSON object are unique). -/
def lookupField {α : Type} : List (List Char × α) → List Char → Option α
  | [], _ => none
  | (k, v) :: t, key => if k = key then some v else lookupField t key

/-- Set a key in an association list in place (the position of an existing
key is preserved, a new key is appended), modelling `d[k] = v`. -/
def dictSet {α : Type} : List (List Char × α) → List Char → α → List (List Char × α)
  | [], key, v => [(key, v)]
  | (k, w) :: t, key, v => if k = key then (key, v) :: t else (k, w) :: dictSet t key v

/-- Merge a patch into a dictionary, modelling `d.update(patch)`. -/
def dictUpdate {α : Type} (d patch : List (List Char × α)) : List (List Char × α) :=
  patch.foldl (fun acc kv => dictSet acc kv.1 kv.2) d

/-! ## Tokenizer of `PipeResponseGenerator.generate_random_chunks`
(`src/pipes.py` line 88): `re.findall(r"\w+|[^\w\s]|\s+", text)`.
The three alternatives partition the character set, so the matches are
the maximal word runs, the single characters that are neither word nor
space, and the maximal whitespace runs, in text order. -/

/-- Fuel-indexed scanner producing the matches of `\w+|[^\w\s]|\s+`. -/
def findallAux : Nat → List Char → List (List Char)
  | 0, _ => []
  | _, [] => []
  | fuel + 1, c :: rest =>
    if isWordChar c then
      (c :: rest.takeWhile isWordChar) :: findallAux fuel (rest.dropWhile isWordChar)
    else if isSpaceChar c then
      (c :: rest.takeWhile isSpaceChar) :: findallAux fuel (rest.dropWhile isSpaceChar)
    else
      [c] :: findallAux fuel rest

/-- Matches of `re.findall(r"\w+|[^\w\s]|\s+", text)` in text order. -/
def findall (s : List Char) : List (List Char) := findallAux s.length s

/-! ## Chunk planner (`PipeResponseGenerator.generate_random_chunks`,
`src/pipes.py` lines 80-141) -/

/-- Body of the first `for word in words` loop (`src/pipes.py` lines 90-100):
a non-whitespace match that is longer than four characters and purely
alphabetic is split into two halves at `len(word) // 2`; every other
match is kept whole. -/
def splitLongWord (w : List Char) : List (List Char) :=
  if w.any (fun c => !(isSpaceChar c)) then
    if w.length > 4 && w.all isAlphaChar then
      [w.take (w.length / 2), w.drop (w.length / 2)]
    else [w]
  else [w]

/-- Body of the expansion loop (`src/pipes.py` lines 108-114): a token
longer than two characters and purely alphabetic is split into its
single characters; every other token is kept whole. -/
def expandToken (t : List Char) : List (List Char) :=
  if t.length > 2 && t.all isAlphaChar then t.map (fun c => [c]) else [t]

/-- Tokens after the first splitting pass (`src/pipes.py` lines 85-103):
regex matches with long purely-alphabetic words halved, empty tokens
removed. -/
def baseTokens (text : List Char) : List (List Char) :=
  ((findall text).flatMap splitLongWord).filter (fun t => !t.isEmpty)

/-- Token list the chunk planner distributes (`src/pipes.py` lines 85-115):
when fewer tokens than `min_chunks` remain after the first pass,
purely-alphabetic tokens longer than two characters are expanded into
single characters. -/
def chunkTokens (text : List Char) (minChunks : Nat) : List (List Char) :=
  if (baseTokens text).length < minChunks then (baseTokens text).flatMap expandToken
  else baseTokens text

/-- Distribution loop (`src/pipes.py` lines 124-139): emit `n` chunks,
each the concatenation of the next `chunk_size` tokens, the first
`remainder` chunks taking one extra token; empty concatenations are
skipped. -/
def distributeChunks (cs : Nat) : Nat → Nat → List (List Char) → List (List Char)
  | 0, _, _ => []
  | n + 1, r, tokens =>
    if ((tokens.take (cs + (if 0 < r then 1 else 0))).flatten).isEmpty then
      distributeChunks cs n (r - 1) (tokens.drop (cs + (if 0 < r then 1 else 0)))
    else
      (tokens.take (cs + (if 0 < r then 1 else 0))).flatten ::
        distributeChunks cs n (r - 1) (tokens.drop (cs + (if 0 < r then 1 else 0)))

/-- Model of `PipeResponseGenerator.generate_random_chunks(text, min_chunks,
max_chunks)` (`src/pipes.py` lines 80-141).  `draw` is the result of
`secrets.randbelow(max_chunks - min_chunks + 1)`, so a valid draw
satisfies `draw ≤ maxChunks - minChunks`; the chosen chunk count is
`min(len(tokens), draw + min_chunks)` and when it reaches the token
count the tokens are returned unchanged. -/
def generate_random_chunks (text : List Char) (minChunks maxChunks draw : Nat) :
    List (List Char) :=
  let tokens := chunkTokens text minChunks
  let numChunks := min tokens.length (draw + minChunks)
  if tokens.length ≤ numChunks then tokens
  else distributeChunks (tokens.length / numChunks) numChunks
    (tokens.length % numChunks) tokens

/-! ## Python values decoded from JSON bodies

Every request body reaches the handlers through `json.loads`, so the
values the handlers inspect are exactly: `None`, booleans, numbers,
strings, lists and string-keyed dictionaries.  `JVal` models that
universe (numbers as integers; no claim touches a fractional number). -/

inductive JVal where
  | jnull : JVal
  | jbool : Bool → JVal
  | jnum : Int → JVal
  | jstr : List Char → JVal
  | jarr : List JVal → JVal
  | jobj : List (List Char × JVal) → JVal

/-- Python truthiness (`bool(x)`) of a decoded JSON value. -/
def jTruthy : JVal → Bool
  | .jnull => false
  | .jbool b => b
  | .jnum n => decide (n ≠ 0)
  | .jstr s => !s.isEmpty
  | .jarr l => !l.isEmpty
  | .jobj f => !f.isEmpty

/-- The apostrophe character (used by Python `repr` of strings). -/
def apos : Char := Char.ofNat 39

/-- The opening curly brace character. -/
def lbraceChar : Char := Char.ofNat 123

/-- The closing curly brace character. -/
def rbraceChar : Char := Char.ofNat 125

/-- Decimal digit character for `d % 10`. -/
def digitChar (d : Nat) : Char :=
  match d % 10 with
  | 0 => '0' | 1 => '1' | 2 => '2' | 3 => '3' | 4 => '4'
  | 5 => '5' | 6 => '6' | 7 => '7' | 8 => '8' | _ => '9'

/-- Fuel-indexed decimal printer for natural numbers. -/
def natCharsAux : Nat → Nat → List Char
  | 0, _ => []
  | fuel + 1, n =>
    if n < 10 then [digitChar n]
    else natCharsAux fuel (n / 10) ++ [digitChar (n % 10)]

/-- Decimal representation of a natural number (`str(n)`). -/
def natChars (n : Nat) : List Char := natCharsAux (n + 1) n

/-- Decimal representation of an integer (`str(n)`). -/
def intChars (n : Int) : List Char :=
  if n < 0 then '-' :: natChars n.natAbs else natChars n.toNat

mutual

/-- Python `str(x)` for a decoded JSON value: strings yield themselves,
`None`/`True`/`False` their Python names, numbers their decimal form,
and containers their `repr` rendering (the handlers only ever apply
`str` to non-dict values, but the definition is total). -/
def pyStr : JVal → List Char
  | .jnull => "None".toList
  | .jbool true => "True".toList
  | .jbool false => "False".toList
  | .jnum n => intChars n
  | .jstr s => s
  | .jarr items => '[' :: pyReprSeq items ++ [']']
  | .jobj fields => lbraceChar :: pyReprFields fields ++ [rbraceChar]

/-- Python `repr(x)` for a decoded JSON value (strings are quoted;
escaping inside the quotes is not modelled — no claim reaches it). -/
def pyRepr : JVal → List Char
  | .jnull => "None".toList
  | .jbool true => "True".toList
  | .jbool false => "False".toList
  | .jnum n => intChars n
  | .jstr s => apos :: s ++ [apos]
  | .jarr items => '[' :: pyReprSeq items ++ [']']
  | .jobj fields => lbraceChar :: pyReprFields fields ++ [rbraceChar]

/-- Comma-separated `repr` of the elements of a list. -/
def pyReprSeq : List JVal → List Char
  | [] => []
  | [x] => pyRepr x
  | x :: y :: t => pyRepr x ++ ", ".toList ++ pyReprSeq (y :: t)

/-- Comma-separated `repr` of the entries of a dictionary. -/
def pyReprFields : List (List Char × JVal) → List Char
  | [] => []
  | [(k, v)] => apos :: k ++ [apos] ++ ": ".toList ++ pyRepr v
  | (k, v) :: x :: t =>
    apos :: k ++ [apos] ++ ": ".toList ++ pyRepr v ++ ", ".toList ++ pyReprFields (x :: t)

end

/-! ## Response synthesizer (`PipeResponseGenerator.get_sample_response`,
`src/pipes.py` lines 46-78) and prompt-token accounting
(`PipeResponseGenerator.calculate_prompt_tokens`, lines 23-44) -/

/-- Model of `SAMPLE_RESPONSES[0]` of `src/pipes.py`. -/
def SAMPLE_RESPONSE_0 : List Char :=
  "Hello! I".toList ++ apos ::
    "m an AI assistant created by Langbase. How can I help you today?".toList

/-- Model of `SAMPLE_RESPONSES[1]` of `src/pipes.py`. -/
def SAMPLE_RESPONSE_1 : List Char :=
  "I understand you".toList ++ apos ::
    "re looking for information. Let me provide you with a comprehensive response.".toList

/-- Model of `SAMPLE_RESPONSES[2]` of `src/pipes.py`. -/
def SAMPLE_RESPONSE_2 : List Char :=
  "Based on your question, here".toList ++ apos ::
    "s what I can tell you about the topic you".toList ++ apos ::
    "re interested in.".toList

/-- Model of `SAMPLE_RESPONSES[3]` of `src/pipes.py`. -/
def SAMPLE_RESPONSE_3 : List Char :=
  "Thank you for your question! I".toList ++ apos ::
    "m here to assist you with accurate and helpful information.".toList

/-- Model of `PipeResponseGenerator.get_sample_response` (`src/pipes.py` lines
46-78).  A dict message contributes its `content` value when that value
is a string (`.lower()` on a non-string raises `AttributeError`, which
the source catches by using the empty string); a non-empty list message
contributes its first item content (or the item `str` form when the
item is not a dict); any other message — including an empty list —
contributes its own `str` form.  The first matching keyword family
selects the canned reply. -/
def get_sample_response (messages : List JVal) : List Char :=
  match messages.getLast? with
  | none => SAMPLE_RESPONSE_0
  | some last =>
    let lastMessage : List Char :=
      match last with
      | .jobj fields =>
        match (lookupField fields "content".toList).getD (.jstr []) with
        | .jstr s => lowerStr s
        | _ => []
      | .jarr (firstItem :: _) =>
        match firstItem with
        | .jobj fields =>
          match (lookupField fields "content".toList).getD (.jstr []) with
          | .jstr s => lowerStr s
          | _ => []
        | x => lowerStr (pyStr x)
      | x => lowerStr (pyStr x)
    if occurs "hello".toList lastMessage || occurs "hi".toList lastMessage then
      SAMPLE_RESPONSE_0
    else if occurs "help".toList lastMessage || occurs "question".toList lastMessage then
      SAMPLE_RESPONSE_1
    else if occurs "information".toList lastMessage || occurs "tell me".toList lastMessage then
      SAMPLE_RESPONSE_2
    else SAMPLE_RESPONSE_3

/-- Contribution of one message to `calculate_prompt_tokens`
(`src/pipes.py` lines 26-43): the word count of the extracted content;
a failure of `.split()` on a non-string content is caught by the source
and the message skipped, contributing zero. -/
def promptTokensOfMessage (msg : JVal) : Nat :=
  match msg with
  | .jobj fields =>
    match (lookupField fields "content".toList).getD (.jstr []) with
    | .jstr s => wordCount s
    | _ => 0
  | .jarr (firstItem :: _) =>
    match firstItem with
    | .jobj fields =>
      match (lookupField fields "content".toList).getD (.jstr []) with
      | .jstr s => wordCount s
      | _ => 0
    | x => wordCount (pyStr x)
  | x => wordCount (pyStr x)

/-- Model of `PipeResponseGenerator.calculate_prompt_tokens` (`src/pipes.py`
lines 23-44). -/
def calculate_prompt_tokens (messages : List JVal) : Nat :=
  (messages.map promptTokensOfMessage).sum

/-! ## Claim-side description of the synthesizer (C4, amended) -/

/-- Content string the amended C4 description attributes to a message:
a dict message `content` when it is a plain string (lower-cased),
empty when the `content` of a dict is missing or not a plain string; for
a list-shaped message the first element content (or its string form
when the element is not a dict); for any other message its string form. -/
def describedContent (m : JVal) : List Char :=
  match m with
  | .jobj fields =>
    match (lookupField fields "content".toList).getD (.jstr []) with
    | .jstr s => lowerStr s
    | _ => []
  | .jarr (firstItem :: _) =>
    match firstItem with
    | .jobj fields =>
      match (lookupField fields "content".toList).getD (.jstr []) with
      | .jstr s => lowerStr s
      | _ => []
    | x => lowerStr (pyStr x)
  | x => lowerStr (pyStr x)

/-- Fixed priority order of canned replies over an extracted content
string, as the specification states it. -/
def describedReply (lastMessage : List Char) : List Char :=
  if occurs "hello".toList lastMessage || occurs "hi".toList lastMessage then
    SAMPLE_RESPONSE_0
  else if occurs "help".toList lastMessage || occurs "question".toList lastMessage then
    SAMPLE_RESPONSE_1
  else if occurs "information".toList lastMessage || occurs "tell me".toList lastMessage then
    SAMPLE_RESPONSE_2
  else SAMPLE_RESPONSE_3

/-- Reply selection as described by the amended C4: empty message list
gives the default reply, otherwise the priority order is applied to the
content extracted from the last message. -/
def synthesizeDescribed (messages : List JVal) : List Char :=
  match messages.getLast? with
  | none => SAMPLE_RESPONSE_0
  | some last => describedReply (describedContent last)

/-! ## Thread/message store (`ThreadStorage`, `src/threads.py` lines 6-122),
its handler (`ThreadHandler.handle_append_messages`, lines 148-158) and
the status mapping of `_handle_append_messages`
(`src/http_handler.py` lines 113-127).

The store two dictionaries are modelled as association lists with
unique keys; `uuid` generation and `time.time()` are explicit
parameters.  Failures are the exception types the source raises. -/

/-- Exceptions raised by the thread endpoints: the typed errors of
`src/threads.py` plus the built-in Python exceptions the storage layer
can raise (`ValueError` for a missing role, `TypeError` for a non-dict
message, `AttributeError` for `.update` on a non-dict). -/
inductive ThreadsError where
  | threadNotFound : ThreadsError
  | threadExists : ThreadsError
  | threadConflict : ThreadsError
  | invalidRequest : ThreadsError
  | valueError : ThreadsError
  | typeError : ThreadsError
  | attributeError : ThreadsError
  deriving DecidableEq

/-- A record of `ThreadStorage._threads` (`src/threads.py` lines 19-24). -/
structure ThreadData where
  id : List Char
  obj : List Char
  createdAt : Nat
  metadata : JVal

/-- A record built by `ThreadStorage._create_message_data`
(`src/threads.py` lines 104-122). -/
structure MessageData where
  id : List Char
  threadId : List Char
  createdAt : Nat
  role : JVal
  content : JVal
  toolCallId : JVal
  toolCalls : JVal
  name : JVal
  attachments : JVal
  metadata : JVal

/-- The two dictionaries of a `ThreadStorage` instance
(`src/threads.py` lines 7-9). -/
structure ThreadStore where
  threads : List (List Char × ThreadData)
  messages : List (List Char × List MessageData)

/-- Remove a key from a dictionary, modelling `del d[k]`. -/
def dictRemove {α : Type} (d : List (List Char × α)) (key : List Char) :
    List (List Char × α) :=
  d.filter (fun p => decide (p.1 ≠ key))

/-- Python `x or default`. -/
def pyOr (v dflt : JVal) : JVal := if jTruthy v then v else dflt

/-- Model of `ThreadStorage.create_thread` (`src/threads.py` lines 11-29).
`genId` is the `thread_{uuid4()}` drawn when no id is supplied; `now`
is `int(time.time())`. -/
def create_thread (st : ThreadStore) (threadId : Option (List Char))
    (genId : List Char) (metadata : JVal) (now : Nat) :
    Except ThreadsError (ThreadData × ThreadStore) :=
  let tid := threadId.getD genId
  match lookupField st.threads tid with
  | some _ => .error .threadExists
  | none =>
    let td : ThreadData :=
      { id := tid, obj := "thread".toList, createdAt := now,
        metadata := pyOr metadata (.jobj []) }
    .ok (td, { threads := dictSet st.threads tid td,
               messages := dictSet st.messages tid [] })

/-- Model of `ThreadStorage.thread_exists` (`src/threads.py` lines 31-32). -/
def thread_exists (st : ThreadStore) (tid : List Char) : Bool :=
  (lookupField st.threads tid).isSome

/-- Model of `ThreadStorage.get_thread` (`src/threads.py` lines 34-38). -/
def get_thread (st : ThreadStore) (tid : List Char) :
    Except ThreadsError ThreadData :=
  match lookupField st.threads tid with
  | none => .error .threadNotFound
  | some t => .ok t

/-- Model of `ThreadStorage._create_message_data` (`src/threads.py` lines
104-122).  A dict message without a `role` key raises `ValueError`; the
remaining fields default as in the source (`.get` gives `None`,
`x or []` / `x or` an empty dict).  For a non-dict message the
membership test `"role" not in message_dict` runs Python semantics: on
a string it is a substring test, on a list an element-equality test —
when it passes, the subscript `message_dict["role"]` raises
`TypeError`; on the remaining values the membership test itself raises
`TypeError`. -/
def create_message_data (messageId threadId : List Char) (messageDict : JVal)
    (now : Nat) : Except ThreadsError MessageData :=
  match messageDict with
  | .jobj fields =>
    match lookupField fields "role".toList with
    | none => .error .valueError
    | some role =>
      .ok { id := messageId, threadId := threadId, createdAt := now,
            role := role,
            content := (lookupField fields "content".toList).getD .jnull,
            toolCallId := (lookupField fields "tool_call_id".toList).getD .jnull,
            toolCalls := pyOr ((lookupField fields "tool_calls".toList).getD .jnull) (.jarr []),
            name := (lookupField fields "name".toList).getD .jnull,
            attachments := pyOr ((lookupField fields "attachments".toList).getD .jnull) (.jarr []),
            metadata := pyOr ((lookupField fields "metadata".toList).getD .jnull) (.jobj []) }
  | .jstr s =>
    if occurs "role".toList s then .error .typeError else .error .valueError
  | .jarr items =>
    if items.any (fun v => match v with | .jstr s => decide (s = "role".toList) | _ => false)
    then .error .typeError else .error .valueError
  | _ => .error .typeError

/-- The loop of `ThreadStorage.add_messages` (`src/threads.py` lines
45-50): build one record per input message, in order; `genMsgId i` is
the `msg_{uuid4()}` drawn for the i-th message.  The first failing
message aborts with its exception (the source has by then appended the
earlier records to the log, a partial state that its caller never
observes because the exception propagates to the transport layer). -/
def buildMessages (threadId : List Char) (genMsgId : Nat → List Char) (now : Nat) :
    Nat → List JVal → Except ThreadsError (List MessageData)
  | _, [] => .ok []
  | i, m :: rest =>
    match create_message_data (genMsgId i) threadId m now with
    | .error e => .error e
    | .ok md =>
      match buildMessages threadId genMsgId now (i + 1) rest with
      | .error e => .error e
      | .ok mds => .ok (md :: mds)

/-- Model of `ThreadStorage.add_messages` (`src/threads.py` lines 40-52). -/
def add_messages (st : ThreadStore) (tid : List Char) (msgs : List JVal)
    (genMsgId : Nat → List Char) (now : Nat) :
    Except ThreadsError (List MessageData × ThreadStore) :=
  match lookupField st.threads tid with
  | none => .error .threadNotFound
  | some _ =>
    match buildMessages tid genMsgId now 0 msgs with
    | .error e => .error e
    | .ok created =>
      .ok (created,
        { st with messages :=
            dictSet st.messages tid ((lookupField st.messages tid).getD [] ++ created) })

/-- Model of `ThreadStorage.get_messages` (`src/threads.py` lines 54-58): the
existence check is against `_threads`; the log is then read with
`self._messages.get(thread_id, [])`. -/
def get_messages (st : ThreadStore) (tid : List Char) :
    Except ThreadsError (List MessageData) :=
  match lookupField st.threads tid with
  | none => .error .threadNotFound
  | some _ => .ok ((lookupField st.messages tid).getD [])

/-- Model of `ThreadStorage.update_thread` (`src/threads.py` lines 82-90): the
patch is merged into the stored metadata with `dict.update`; `.update`
on a stored non-dict metadata value would raise `AttributeError` (the
handler has already rejected non-dict patches). -/
def update_thread (st : ThreadStore) (tid : List Char) (metadata : JVal) :
    Except ThreadsError (ThreadData × ThreadStore) :=
  match lookupField st.threads tid with
  | none => .error .threadNotFound
  | some t =>
    match t.metadata, metadata with
    | .jobj d, .jobj p =>
      .ok ({ t with metadata := .jobj (dictUpdate d p) },
        { st with threads :=
            dictSet st.threads tid { t with metadata := .jobj (dictUpdate d p) } })
    | _, _ => .error .attributeError

/-- Model of `ThreadStorage.delete_thread` (`src/threads.py` lines 92-102):
removes the thread record, then the message log if present. -/
def delete_thread (st : ThreadStore) (tid : List Char) :
    Except ThreadsError (Bool × ThreadStore) :=
  match lookupField st.threads tid with
  | none => .error .threadNotFound
  | some _ =>
    .ok (true,
      if (lookupField st.messages tid).isSome then
        { threads := dictRemove st.threads tid,
          messages := dictRemove st.messages tid }
      else { st with threads := dictRemove st.threads tid })

/-- Model of `ThreadHandler.handle_append_messages` (`src/threads.py` lines
148-158): `messages` defaults to `[]`, must be a non-empty list, and
the storage call exceptions propagate. -/
def handle_append_messages (st : ThreadStore) (tid : List Char)
    (requestData : List (List Char × JVal)) (genMsgId : Nat → List Char)
    (now : Nat) : Except ThreadsError (List MessageData × ThreadStore) :=
  match (lookupField requestData "messages".toList).getD (.jarr []) with
  | .jarr items =>
    if items.isEmpty then .error .invalidRequest
    else add_messages st tid items genMsgId now
  | _ => .error .invalidRequest

/-- HTTP status `_handle_append_messages` (`src/http_handler.py` lines
113-127) assigns to each exception: `ThreadNotFoundError` gives 404,
`InvalidRequestError` 400, and the catch-all clause
`except (ValueError, KeyError, TypeError)` gives 500 "Internal Server
Error".  `none` marks exceptions that endpoint does not catch. -/
def append_messages_status : ThreadsError → Option Nat
  | .threadNotFound => some 404
  | .invalidRequest => some 400
  | .valueError => some 500
  | .typeError => some 500
  | _ => none

/-! ## Variable substitution (`VariableProcessor.substitute_variables`,
`src/variable_processor.py` lines 10-39).

The regex `\x7b\x7b\\s*([a-zA-Z_][a-zA-Z0-9_]*)\\s*\x7d\x7d` is modelled by a
scanner: at each position the pattern is tried (its character classes
are pairwise disjoint, so the greedy runs match without backtracking);
on a match the replacement is emitted and scanning continues after the
match, otherwise one character is copied — exactly `re.sub` leftmost,
non-overlapping semantics. -/

/-- Leading identifier character of the placeholder pattern
(`[a-zA-Z_]`). -/
def isIdentStartChar (c : Char) : Bool := c.isAlpha || c = '_'

/-- Identifier character of the placeholder pattern (`[a-zA-Z0-9_]`). -/
def isIdentChar (c : Char) : Bool := c.isAlphanum || c = '_'

/-- Match of the placeholder pattern at the head of the input: returns
the whole matched text, the identifier, and the remaining input. -/
def tryMatchPlaceholder (s : List Char) :
    Option (List Char × List Char × List Char) :=
  match s with
  | c1 :: c2 :: rest =>
    if c1 = lbraceChar && c2 = lbraceChar then
      match rest.dropWhile isSpaceChar with
      | c3 :: rest2 =>
        if isIdentStartChar c3 then
          match (rest2.dropWhile isIdentChar).dropWhile isSpaceChar with
          | c4 :: c5 :: rest5 =>
            if c4 = rbraceChar && c5 = rbraceChar then
              some (c1 :: c2 :: rest.takeWhile isSpaceChar
                  ++ c3 :: rest2.takeWhile isIdentChar
                  ++ (rest2.dropWhile isIdentChar).takeWhile isSpaceChar
                  ++ [c4, c5],
                c3 :: rest2.takeWhile isIdentChar, rest5)
            else none
          | _ => none
        else none
      | [] => none
    else none
  | _ => none

/-- The inner `replace_variable` of `substitute_variables`
(`src/variable_processor.py` lines 28-37): a bound identifier is
replaced by `str(value)` — the empty string when the value is `None` —
and an unbound identifier keeps the original matched text `m`. -/
def replace_variable (vars : List (List Char × JVal)) (nm m : List Char) :
    List Char :=
  match lookupField vars nm with
  | some .jnull => []
  | some v => pyStr v
  | none => m

/-- Fuel-indexed scanner applying `replace_variable` at every match of
the placeholder pattern, modelling `re.sub` (fuel at least the input
length never runs out, since every step consumes at least one
character). -/
def substituteAux (vars : List (List Char × JVal)) :
    Nat → List Char → List Char
  | 0, s => s
  | _, [] => []
  | fuel + 1, c :: restS =>
    match tryMatchPlaceholder (c :: restS) with
    | some (m, nm, restAfter) =>
      replace_variable vars nm m ++ substituteAux vars fuel restAfter
    | none => c :: substituteAux vars fuel restS

/-- Model of `VariableProcessor.substitute_variables` (`src/variable_processor.py`
lines 10-39): empty content or an empty variable mapping is returned
unchanged; otherwise every placeholder occurrence is substituted. -/
def substitute_variables (content : List Char)
    (vars : List (List Char × JVal)) : List Char :=
  if content.isEmpty || vars.isEmpty then content
  else substituteAux vars content.length content

/-- A valid placeholder identifier: non-empty, leading letter or
underscore, then letters, digits or underscores. -/
def validIdent (nm : List Char) : Bool :=
  match nm with
  | [] => false
  | c :: t => isIdentStartChar c && t.all isIdentChar

/-! ## JSON serialization (`json.dumps`) of the SSE chunk dictionaries

`json.dumps` is applied with its defaults: item separator `", "`,
key separator `": "`, `ensure_ascii=True`.  Its string escaping is
modelled exactly: `"` and `\` and the short control escapes, `\uXXXX`
for the other characters outside `0x20..0x7e` (a surrogate pair above
`0xFFFF`). -/

/-- Hexadecimal digit character for `d % 16` (lowercase, as
`json.dumps` emits). -/
def hexDigitChar (d : Nat) : Char :=
  match d % 16 with
  | 0 => '0' | 1 => '1' | 2 => '2' | 3 => '3' | 4 => '4' | 5 => '5' | 6 => '6'
  | 7 => '7' | 8 => '8' | 9 => '9' | 10 => 'a' | 11 => 'b' | 12 => 'c'
  | 13 => 'd' | 14 => 'e' | _ => 'f'

/-- Four-digit hexadecimal rendering of `n` (low 16 bits). -/
def hex4 (n : Nat) : List Char :=
  [hexDigitChar (n / 4096), hexDigitChar (n / 256), hexDigitChar (n / 16),
    hexDigitChar n]

/-- The `\uXXXX` escape of a code point, as a surrogate pair above
`0xFFFF`. -/
def uEscape (n : Nat) : List Char :=
  if n ≤ 65535 then '\\' :: 'u' :: hex4 n
  else
    ('\\' :: 'u' :: hex4 (55296 + (n - 65536) / 1024))
      ++ ('\\' :: 'u' :: hex4 (56320 + (n - 65536) % 1024))

/-- Model of `json.dumps` escaping of one character inside a string literal. -/
def escapeChar (c : Char) : List Char :=
  if c = '"' then ['\\', '"']
  else if c = '\\' then ['\\', '\\']
  else if c = '\n' then ['\\', 'n']
  else if c = '\x0d' then ['\\', 'r']
  else if c = '\t' then ['\\', 't']
  else if c = '\x08' then ['\\', 'b']
  else if c = '\x0c' then ['\\', 'f']
  else if c.toNat < 32 || c.toNat > 126 then uEscape c.toNat
  else [c]

/-- Model of `json.dumps` rendering of a string value. -/
def jsonString (s : List Char) : List Char :=
  '"' :: s.flatMap escapeChar ++ ['"']

/-- One SSE frame: the Python `f"data: {body}\n\n"`. -/
def sseLine (body : List Char) : List Char :=
  "data: ".toList ++ body ++ "\n\n".toList

/-! ## SSE stream generator (`SSEStreamGenerator.generate_sse_stream`,
`src/pipes.py` lines 148-253).

The four chunk dictionaries are serialized exactly as `json.dumps`
renders them (insertion order of the dict literals, `", "`/`": "`
separators).  `completionId` is the caller-passed completion id,
`created` the `int(time.time())` drawn on entry, `fp` the
`fp_{uuid4().hex[:12]}` fingerprint, `draw` the chunk-count draw of
`generate_random_chunks`.  The `time.sleep` pacing and the debug print
have no effect on the emitted frames and are not modelled. -/

/-- Model of `MIN_CHUNKS` of `src/pipes.py`. -/
def MIN_CHUNKS : Nat := 5

/-- Model of `MAX_CHUNKS` of `src/pipes.py`. -/
def MAX_CHUNKS : Nat := 10

/-- Model of `json.dumps(first_chunk_data)` (`src/pipes.py` lines 159-175): the
role-announce chunk, whose single choice carries the assistant role and
an empty content delta. -/
def dumpsFirstChunk (completionId : List Char) (created : Nat) (fp : List Char) :
    List Char :=
  "\x7b\"id\": ".toList ++ jsonString completionId
    ++ ", \"object\": \"chat.completion.chunk\", \"created\": ".toList
    ++ natChars created
    ++ ", \"model\": \"gpt-4o-mini-2024-07-18\", \"service_tier\": \"default\", \"system_fingerprint\": ".toList
    ++ jsonString fp
    ++ ", \"choices\": [\x7b\"index\": 0, \"delta\": \x7b\"role\": \"assistant\", \"content\": \"\", \"refusal\": null\x7d, \"logprobs\": null, \"finish_reason\": null\x7d], \"usage\": null\x7d".toList

/-- Model of `json.dumps(chunk_data)` (`src/pipes.py` lines 182-198): one
content-delta chunk. -/
def dumpsContentChunk (completionId : List Char) (created : Nat)
    (fp chunk : List Char) : List Char :=
  "\x7b\"id\": ".toList ++ jsonString completionId
    ++ ", \"object\": \"chat.completion.chunk\", \"created\": ".toList
    ++ natChars created
    ++ ", \"model\": \"gpt-4o-mini-2024-07-18\", \"service_tier\": \"default\", \"system_fingerprint\": ".toList
    ++ jsonString fp
    ++ ", \"choices\": [\x7b\"index\": 0, \"delta\": \x7b\"content\": ".toList
    ++ jsonString chunk
    ++ "\x7d, \"logprobs\": null, \"finish_reason\": null\x7d], \"usage\": null\x7d".toList

/-- Model of `json.dumps(finish_chunk)` (`src/pipes.py` lines 206-222): the
finish chunk, empty delta and `finish_reason` `"stop"`. -/
def dumpsFinishChunk (completionId : List Char) (created : Nat) (fp : List Char) :
    List Char :=
  "\x7b\"id\": ".toList ++ jsonString completionId
    ++ ", \"object\": \"chat.completion.chunk\", \"created\": ".toList
    ++ natChars created
    ++ ", \"model\": \"gpt-4o-mini-2024-07-18\", \"service_tier\": \"default\", \"system_fingerprint\": ".toList
    ++ jsonString fp
    ++ ", \"choices\": [\x7b\"index\": 0, \"delta\": \x7b\x7d, \"logprobs\": null, \"finish_reason\": \"stop\"\x7d], \"usage\": null\x7d".toList

/-- Model of `json.dumps(usage_chunk)` (`src/pipes.py` lines 230-250): the usage
chunk, empty choice list and the three token counters with their fixed
detail sub-objects. -/
def dumpsUsageChunk (completionId : List Char) (created : Nat) (fp : List Char)
    (promptTokens completionTokens totalTokens : Nat) : List Char :=
  "\x7b\"id\": ".toList ++ jsonString completionId
    ++ ", \"object\": \"chat.completion.chunk\", \"created\": ".toList
    ++ natChars created
    ++ ", \"model\": \"gpt-4o-mini-2024-07-18\", \"service_tier\": \"default\", \"system_fingerprint\": ".toList
    ++ jsonString fp
    ++ ", \"choices\": [], \"usage\": \x7b\"prompt_tokens\": ".toList
    ++ natChars promptTokens
    ++ ", \"completion_tokens\": ".toList ++ natChars completionTokens
    ++ ", \"total_tokens\": ".toList ++ natChars totalTokens
    ++ ", \"prompt_tokens_details\": \x7b\"cached_tokens\": 0, \"audio_tokens\": 0\x7d, \"completion_tokens_details\": \x7b\"reasoning_tokens\": 0, \"audio_tokens\": 0, \"accepted_prediction_tokens\": 0, \"rejected_prediction_tokens\": 0\x7d\x7d\x7d".toList

/-- Model of `SSEStreamGenerator.generate_sse_stream` (`src/pipes.py` lines
148-253): the sequence of frames the generator yields, in order —
role announce, one content chunk per planned fragment, finish chunk,
usage chunk, terminator. -/
def generate_sse_stream (messages : List JVal) (completionId : List Char)
    (created : Nat) (fp : List Char) (draw : Nat) : List (List Char) :=
  sseLine (dumpsFirstChunk completionId created fp)
    :: (generate_random_chunks (get_sample_response messages)
          MIN_CHUNKS MAX_CHUNKS draw).map
        (fun chunk => sseLine (dumpsContentChunk completionId created fp chunk))
    ++ [sseLine (dumpsFinishChunk completionId created fp),
        sseLine (dumpsUsageChunk completionId created fp
          (calculate_prompt_tokens messages)
          (wordCount (get_sample_response messages))
          (calculate_prompt_tokens messages
            + wordCount (get_sample_response messages))),
        "data: [DONE]\n\n".toList]

/-! ## Pipe gateway (`PipeHandler.handle_run_pipe`, `src/pipes.py`
lines 261-308) -/

/-- Failures of the run-pipe endpoint.  `invalidPipeRequest` is the
`InvalidPipeRequestError` the handler raises for a falsy `messages`
value; `messagesNotAList` marks the inputs on which the source would
fail further downstream (a truthy non-list `messages` reaches
`messages[-1]` inside the generators), which no claim exercises. -/
inductive PipeError where
  | invalidPipeRequest : PipeError
  | messagesNotAList : PipeError
  deriving DecidableEq

/-- Result of `handle_run_pipe`: either the SSE frame sequence with the
streaming headers, or the JSON completion body with its header. -/
inductive PipeResult where
  | streamResp : List (List Char) → List (List Char × JVal) → PipeResult
  | jsonResp : JVal → List (List Char × JVal) → PipeResult

/-- The response headers of either branch of `handle_run_pipe`. -/
def headersOf : PipeResult → List (List Char × JVal)
  | .streamResp _ headers => headers
  | .jsonResp _ headers => headers

/-- Model of `PipeHandler.handle_run_pipe` (`src/pipes.py` lines 261-308).
`freshThreadId` is the `str(uuid4())` drawn as the default for a
missing `threadId`; `completionId`, `fp`, `created` and `draw` are the
remaining environment draws.  The handler never consults the thread
store. -/
def handle_run_pipe (requestData : List (List Char × JVal))
    (freshThreadId completionId fp : List Char) (created draw : Nat) :
    Except PipeError PipeResult :=
  if !(jTruthy ((lookupField requestData "messages".toList).getD (.jarr []))) then
    .error .invalidPipeRequest
  else
    match (lookupField requestData "messages".toList).getD (.jarr []) with
    | .jarr msgs =>
      if jTruthy ((lookupField requestData "stream".toList).getD (.jbool false)) then
        .ok (.streamResp
          (generate_sse_stream msgs completionId created fp draw)
          [("lb-thread-id".toList,
              (lookupField requestData "threadId".toList).getD (.jstr freshThreadId)),
            ("Cache-Control".toList, .jstr "no-cache".toList),
            ("Connection".toList, .jstr "close".toList),
            ("Access-Control-Expose-Headers".toList, .jstr "lb-thread-id".toList)])
      else
        .ok (.jsonResp
          (.jobj [("completion".toList, .jstr (get_sample_response msgs)),
            ("raw".toList, .jobj [
              ("id".toList, .jstr completionId),
              ("object".toList, .jstr "chat.completion".toList),
              ("created".toList, .jnum (created : Int)),
              ("model".toList, .jstr "gpt-4o-mini".toList),
              ("choices".toList, .jarr [.jobj [
                ("index".toList, .jnum 0),
                ("message".toList, .jobj [
                  ("role".toList, .jstr "assistant".toList),
                  ("content".toList, .jstr (get_sample_response msgs))]),
                ("logprobs".toList, .jnull),
                ("finish_reason".toList, .jstr "stop".toList)]]),
              ("usage".toList, .jobj [
                ("prompt_tokens".toList, .jnum (calculate_prompt_tokens msgs : Int)),
                ("completion_tokens".toList,
                  .jnum (wordCount (get_sample_response msgs) : Int)),
                ("total_tokens".toList,
                  .jnum ((calculate_prompt_tokens msgs
                    + wordCount (get_sample_response msgs) : Nat) : Int))]),
              ("system_fingerprint".toList, .jstr fp)])])
          [("lb-thread-id".toList,
              (lookupField requestData "threadId".toList).getD (.jstr freshThreadId))])
    | _ => .error .messagesNotAList

/-! ## Lemmas about the chunk planner -/

theorem len_dropWhile_le (p : Char → Bool) (l : List Char) :
    (l.dropWhile p).length ≤ l.length := by
  induction l with
  | nil => simp [List.dropWhile]
  | cons c t ih =>
    by_cases h : p c
    · simp [List.dropWhile, h]; omega
    · simp [List.dropWhile, h]

theorem findallAux_flatten (fuel : Nat) (s : List Char) (h : s.length ≤ fuel) :
    (findallAux fuel s).flatten = s := by
  induction fuel generalizing s with
  | zero =>
    have : s = [] := by
      cases s with
      | nil => rfl
      | cons c t => simp at h
    simp [this, findallAux]
  | succ fuel ih =>
    cases s with
    | nil => simp [findallAux]
    | cons c rest =>
      rw [findallAux]
      have hr : rest.length ≤ fuel := by simp at h; omega
      by_cases h1 : isWordChar c
      · have := len_dropWhile_le isWordChar rest
        simp [h1, ih (rest.dropWhile isWordChar) (by omega),
          List.takeWhile_append_dropWhile]
      · by_cases h2 : isSpaceChar c
        · have := len_dropWhile_le isSpaceChar rest
          simp [h1, h2, ih (rest.dropWhile isSpaceChar) (by omega),
            List.takeWhile_append_dropWhile]
        · simp [h1, h2, ih rest hr]

theorem findall_flatten (s : List Char) : (findall s).flatten = s :=
  findallAux_flatten s.length s (Nat.le_refl _)

theorem flatMap_flatten_eq (f : List Char → List (List Char))
    (hf : ∀ w, (f w).flatten = w) (l : List (List Char)) :
    (l.flatMap f).flatten = l.flatten := by
  induction l with
  | nil => simp
  | cons w t ih => simp [ih, hf w]

theorem splitLongWord_flatten (w : List Char) : (splitLongWord w).flatten = w := by
  unfold splitLongWord
  split
  · split
    · simp
    · simp
  · simp

theorem flatten_map_singleton (l : List Char) :
    (l.map (fun c => [c])).flatten = l := by
  induction l with
  | nil => simp
  | cons c r ih => simp [ih]

theorem expandToken_flatten (t : List Char) : (expandToken t).flatten = t := by
  unfold expandToken
  split
  · exact flatten_map_singleton t
  · simp

theorem flatten_filter_nonempty (l : List (List Char)) :
    (l.filter (fun t => !t.isEmpty)).flatten = l.flatten := by
  induction l with
  | nil => simp
  | cons t r ih =>
    by_cases h : t.isEmpty
    · have : t = [] := by simpa [List.isEmpty_iff] using h
      simp [this, ih]
    · simp [List.filter, h, ih]

theorem baseTokens_flatten (text : List Char) : (baseTokens text).flatten = text := by
  unfold baseTokens
  rw [flatten_filter_nonempty, flatMap_flatten_eq splitLongWord splitLongWord_flatten,
    findall_flatten]

theorem chunkTokens_flatten (text : List Char) (minChunks : Nat) :
    (chunkTokens text minChunks).flatten = text := by
  unfold chunkTokens
  split
  · rw [flatMap_flatten_eq expandToken expandToken_flatten, baseTokens_flatten]
  · exact baseTokens_flatten text

theorem chunkTokens_ne_nil (text : List Char) (minChunks : Nat) :
    ∀ t ∈ chunkTokens text minChunks, t ≠ [] := by
  intro t ht
  unfold chunkTokens at ht
  split at ht
  · rcases List.mem_flatMap.mp ht with ⟨u, hu, htu⟩
    have hu' : u ≠ [] := by
      rcases List.mem_filter.mp hu with ⟨-, h⟩
      simpa [List.isEmpty_iff] using h
    unfold expandToken at htu
    split at htu
    · rcases List.mem_map.mp htu with ⟨c, -, rfl⟩
      simp
    · simp at htu
      simpa [htu] using hu'
  · rcases List.mem_filter.mp ht with ⟨-, h⟩
    simpa [List.isEmpty_iff] using h

theorem distributeChunks_flatten (cs : Nat) :
    ∀ (n r : Nat) (tokens : List (List Char)), r ≤ n → 1 ≤ cs →
      tokens.length = n * cs + r →
      (distributeChunks cs n r tokens).flatten = tokens.flatten := by
  intro n
  induction n with
  | zero =>
    intro r tokens hr _ hlen
    have hz : (0 : Nat) * cs = 0 := Nat.zero_mul cs
    have : tokens = [] := List.eq_nil_of_length_eq_zero (by omega)
    simp [this, distributeChunks]
  | succ n ih =>
    intro r tokens hr hcs hlen
    have hsm : (n + 1) * cs = n * cs + cs := Nat.succ_mul n cs
    have hlen' : (tokens.drop (cs + (if 0 < r then 1 else 0))).length
        = n * cs + (r - 1) := by
      rw [List.length_drop]
      split <;> omega
    have hIH := ih (r - 1) (tokens.drop (cs + (if 0 < r then 1 else 0)))
      (by omega) hcs hlen'
    rw [distributeChunks]
    by_cases hc : ((tokens.take (cs + (if 0 < r then 1 else 0))).flatten).isEmpty
    · rw [if_pos hc, hIH]
      have hnil : (tokens.take (cs + (if 0 < r then 1 else 0))).flatten = [] := by
        simpa [List.isEmpty_iff] using hc
      conv_rhs => rw [← List.take_append_drop (cs + (if 0 < r then 1 else 0)) tokens]
      rw [List.flatten_append, hnil, List.nil_append]
    · rw [if_neg hc, List.flatten_cons, hIH]
      conv_rhs => rw [← List.take_append_drop (cs + (if 0 < r then 1 else 0)) tokens]
      rw [List.flatten_append]

theorem distributeChunks_length (cs : Nat) :
    ∀ (n r : Nat) (tokens : List (List Char)), r ≤ n → 1 ≤ cs →
      tokens.length = n * cs + r → (∀ t ∈ tokens, t ≠ []) →
      (distributeChunks cs n r tokens).length = n := by
  intro n
  induction n with
  | zero =>
    intro r tokens _ _ _ _
    simp [distributeChunks]
  | succ n ih =>
    intro r tokens hr hcs hlen hne
    have hsm : (n + 1) * cs = n * cs + cs := Nat.succ_mul n cs
    have hpos : 0 < tokens.length := by omega
    obtain ⟨t0, rest0, rfl⟩ : ∃ t0 rest0, tokens = t0 :: rest0 := by
      cases tokens with
      | nil => simp at hpos
      | cons a b => exact ⟨a, b, rfl⟩
    have ht0 : t0 ≠ [] := hne t0 (List.mem_cons_self t0 rest0)
    have hsz : 1 ≤ cs + (if 0 < r then 1 else 0) := by omega
    obtain ⟨k, hk⟩ : ∃ k, cs + (if 0 < r then 1 else 0) = k + 1 :=
      ⟨cs + (if 0 < r then 1 else 0) - 1, by omega⟩
    have hchunk : ¬ (((t0 :: rest0).take (cs + (if 0 < r then 1 else 0))).flatten).isEmpty := by
      rw [hk]
      cases t0 with
      | nil => exact absurd rfl ht0
      | cons a t => simp
    rw [distributeChunks, if_neg hchunk]
    simp only [List.length_cons]
    congr 1
    apply ih (r - 1) ((t0 :: rest0).drop (cs + (if 0 < r then 1 else 0)))
      (by omega) hcs
    · rw [List.length_drop]
      simp only [List.length_cons] at hlen ⊢
      split <;> omega
    · intro t ht
      exact hne t (List.mem_of_mem_drop ht)

/-! ## Claim theorems for the chunk planner -/

/-- C1: for every non-empty string and every valid pair
`1 ≤ min_chunks ≤ max_chunks`, concatenating the fragments returned by
`generate_random_chunks` in order yields the input text exactly, for
every possible draw of the random chunk count. -/
theorem generate_random_chunks_roundtrip (text : List Char)
    (minChunks maxChunks draw : Nat) (hne : text ≠ []) (h1 : 1 ≤ minChunks)
    (h2 : minChunks ≤ maxChunks) (hd : draw ≤ maxChunks - minChunks) :
    (generate_random_chunks text minChunks maxChunks draw).flatten = text := by
  unfold generate_random_chunks
  by_cases hlen : (chunkTokens text minChunks).length ≤
      min (chunkTokens text minChunks).length (draw + minChunks)
  · simp only [hlen, if_pos]
    exact chunkTokens_flatten text minChunks
  · simp only [hlen, if_neg, if_false]
    have hnum : min (chunkTokens text minChunks).length (draw + minChunks)
        = draw + minChunks := by
      rcases Nat.le_total (chunkTokens text minChunks).length (draw + minChunks) with h | h
      · omega
      · exact Nat.min_eq_right h
    have hpos : 0 < min (chunkTokens text minChunks).length (draw + minChunks) := by omega
    have hle : min (chunkTokens text minChunks).length (draw + minChunks)
        ≤ (chunkTokens text minChunks).length := Nat.min_le_left _ _
    rw [distributeChunks_flatten]
    · exact chunkTokens_flatten text minChunks
    · exact Nat.le_of_lt (Nat.mod_lt _ hpos)
    · exact (Nat.one_le_div_iff hpos).mpr hle
    · exact (Nat.div_add_mod _ _).symm

/-- C1 witness: a concrete run of the round-trip theorem. -/
theorem generate_random_chunks_roundtrip_witness :
    ("ab".toList ≠ [] ∧ 1 ≤ 1 ∧ 1 ≤ 2 ∧ 1 ≤ 2 - 1) ∧
      (generate_random_chunks "ab".toList 1 2 1).flatten = "ab".toList :=
  ⟨by decide, generate_random_chunks_roundtrip "ab".toList 1 2 1
    (by decide) (by decide) (by decide) (by decide)⟩

/-- C2 counterexample: on the text `"hello"` with bounds `[5, 10]` the
planner does not return the word-run/punctuation/whitespace tokens
unchanged: the regex tokenization of `"hello"` is the single token
`"hello"`, whose count 1 is below every drawn `n`, yet the planner
returns the four fragments `"he"`, `"l"`, `"l"`, `"o"` (the word is
first halved and then expanded into characters), a fragment count that
is neither within `[5, 10]` nor equal to the regex token count. -/
theorem generate_random_chunks_tokenization_cex :
    generate_random_chunks "hello".toList 5 10 0 =
      ["he".toList, "l".toList, "l".toList, "o".toList] ∧
    findall "hello".toList = ["hello".toList] ∧
    (generate_random_chunks "hello".toList 5 10 0).length = 4 ∧
    (findall "hello".toList).length = 1 ∧
    generate_random_chunks "hello".toList 5 10 0 ≠ findall "hello".toList ∧
    ¬ (5 ≤ (generate_random_chunks "hello".toList 5 10 0).length) := by
  decide

/-- C2 (amended): the fragments of `generate_random_chunks` are built
from `chunkTokens` — the regex tokens with long purely-alphabetic words
halved and, when fewer than `min_chunks` tokens result, alphabetic
tokens expanded into single characters.  When that token count is at
most the drawn chunk count the tokens are returned unchanged, and the
number of fragments always equals `min(tokenCount, draw + min_chunks)`,
hence lies within `[min_chunks, max_chunks]` or equals the token count
when that count is smaller than `min_chunks`. -/
theorem generate_random_chunks_count (text : List Char)
    (minChunks maxChunks draw : Nat) (h1 : 1 ≤ minChunks)
    (h2 : minChunks ≤ maxChunks) (hd : draw ≤ maxChunks - minChunks) :
    ((chunkTokens text minChunks).length ≤ draw + minChunks →
      generate_random_chunks text minChunks maxChunks draw = chunkTokens text minChunks) ∧
    (generate_random_chunks text minChunks maxChunks draw).length
      = min (chunkTokens text minChunks).length (draw + minChunks) ∧
    ((minChunks ≤ (generate_random_chunks text minChunks maxChunks draw).length ∧
        (generate_random_chunks text minChunks maxChunks draw).length ≤ maxChunks) ∨
      ((generate_random_chunks text minChunks maxChunks draw).length
          = (chunkTokens text minChunks).length ∧
        (chunkTokens text minChunks).length < minChunks)) := by
  have hlen : (generate_random_chunks text minChunks maxChunks draw).length
      = min (chunkTokens text minChunks).length (draw + minChunks) := by
    unfold generate_random_chunks
    by_cases hle : (chunkTokens text minChunks).length ≤
        min (chunkTokens text minChunks).length (draw + minChunks)
    · simp only [hle, if_pos]
      omega
    · simp only [hle, if_neg, if_false]
      have hnum : min (chunkTokens text minChunks).length (draw + minChunks)
          = draw + minChunks := by
        rcases Nat.le_total (chunkTokens text minChunks).length (draw + minChunks) with h | h
        · omega
        · exact Nat.min_eq_right h
      have hpos : 0 < min (chunkTokens text minChunks).length (draw + minChunks) := by omega
      have hle' : min (chunkTokens text minChunks).length (draw + minChunks)
          ≤ (chunkTokens text minChunks).length := Nat.min_le_left _ _
      rw [distributeChunks_length]
      · exact Nat.le_of_lt (Nat.mod_lt _ hpos)
      · exact (Nat.one_le_div_iff hpos).mpr hle'
      · exact (Nat.div_add_mod _ _).symm
      · exact chunkTokens_ne_nil text minChunks
  refine ⟨?_, hlen, ?_⟩
  · intro hle
    unfold generate_random_chunks
    have : (chunkTokens text minChunks).length ≤
        min (chunkTokens text minChunks).length (draw + minChunks) := by omega
    simp only [this, if_pos]
  · omega

/-- C2 amended witness: a concrete run of the fragment-count theorem. -/
theorem generate_random_chunks_count_witness :
    (1 ≤ 1 ∧ 1 ≤ 2 ∧ 0 ≤ 2 - 1) ∧
    (((chunkTokens "ab".toList 1).length ≤ 0 + 1 →
        generate_random_chunks "ab".toList 1 2 0 = chunkTokens "ab".toList 1) ∧
      (generate_random_chunks "ab".toList 1 2 0).length
        = min (chunkTokens "ab".toList 1).length (0 + 1) ∧
      ((1 ≤ (generate_random_chunks "ab".toList 1 2 0).length ∧
          (generate_random_chunks "ab".toList 1 2 0).length ≤ 2) ∨
        ((generate_random_chunks "ab".toList 1 2 0).length
            = (chunkTokens "ab".toList 1).length ∧
          (chunkTokens "ab".toList 1).length < 1))) :=
  ⟨by decide, generate_random_chunks_count "ab".toList 1 2 0
    (by decide) (by decide) (by decide)⟩

/-- C4 counterexample: on a bare-string last message and on a
list-shaped last message the synthesizer does not treat the content as
empty: both inputs select the greeting reply (the string form, or the
first list element, is inspected and contains "hello"), whereas empty
content would select the fallback reply. -/
theorem get_sample_response_robustness_cex :
    get_sample_response [.jstr "hello".toList] = SAMPLE_RESPONSE_0 ∧
    get_sample_response [.jarr [.jstr "hello".toList]] = SAMPLE_RESPONSE_0 ∧
    describedReply [] = SAMPLE_RESPONSE_3 ∧
    SAMPLE_RESPONSE_0 ≠ SAMPLE_RESPONSE_3 := by
  decide

/-- C4 (amended): `get_sample_response` is a pure deterministic function
of its input equal to the described selector: the empty message list
gives the fixed default reply; a dict last message is judged by its
`content` string (case-insensitively, treated as empty when missing or
not a plain string); a list-shaped last message is judged by its first
element (that element content when it is a dict, else its string
form); any other last message is judged by its own string form; the
first match in the fixed priority order selects the reply. -/
theorem get_sample_response_eq_described (messages : List JVal) :
    get_sample_response messages = synthesizeDescribed messages := by
  unfold get_sample_response synthesizeDescribed describedReply describedContent
  cases hl : messages.getLast? with
  | none => rfl
  | some last =>
    cases last with
    | jarr items => cases items <;> rfl
    | jnull => rfl
    | jbool b => rfl
    | jnum n => rfl
    | jstr s => rfl
    | jobj fields => rfl

/-! ## Lemmas about the store dictionaries -/

theorem lookupField_dictRemove {α : Type} (d : List (List Char × α)) (key : List Char) :
    lookupField (dictRemove d key) key = none := by
  induction d with
  | nil => rfl
  | cons kv t ih =>
    obtain ⟨k, v⟩ := kv
    unfold dictRemove at ih ⊢
    by_cases h : k = key
    · simpa [List.filter_cons, h] using ih
    · simpa [List.filter_cons, h, lookupField] using ih

theorem lookupField_dictSet {α : Type} (d : List (List Char × α)) (key : List Char)
    (v : α) (k : List Char) :
    lookupField (dictSet d key v) k = if key = k then some v else lookupField d k := by
  induction d with
  | nil => simp only [dictSet, lookupField]
  | cons kw t ih =>
    obtain ⟨k1, w⟩ := kw
    by_cases h1 : k1 = key
    · subst h1
      by_cases h2 : k1 = k
      · simp [dictSet, lookupField, h2]
      · simp [dictSet, lookupField, h2]
    · by_cases h2 : k1 = k
      · have h3 : ¬ key = k := fun hh => h1 (h2.trans hh.symm)
        have h4 : ¬ k = key := fun hh => h3 hh.symm
        simp [dictSet, h1, lookupField, h2, h3, h4]
      · simp [dictSet, h1, lookupField, h2, ih]

theorem lookupField_eq_none {α : Type} (d : List (List Char × α)) (k : List Char)
    (h : k ∉ d.map Prod.fst) : lookupField d k = none := by
  induction d with
  | nil => rfl
  | cons kv t ih =>
    obtain ⟨k1, v⟩ := kv
    simp only [List.map_cons, List.mem_cons, not_or] at h
    obtain ⟨h1, h2⟩ := h
    have hne : ¬ k1 = k := fun hh => h1 hh.symm
    simp [lookupField, hne, ih h2]

theorem dictUpdate_lookup {α : Type} (p : List (List Char × α)) :
    ∀ d : List (List Char × α), (p.map Prod.fst).Nodup → ∀ k,
      lookupField (dictUpdate d p) k
        = (lookupField p k).or (lookupField d k) := by
  induction p with
  | nil =>
    intro d _ k
    simp [dictUpdate, lookupField, Option.or]
  | cons kv t ih =>
    intro d hnd k
    obtain ⟨k0, v0⟩ := kv
    have hstep : dictUpdate d ((k0, v0) :: t) = dictUpdate (dictSet d k0 v0) t := rfl
    rw [hstep]
    simp only [List.map_cons, List.nodup_cons] at hnd
    obtain ⟨hk0, hnd2⟩ := hnd
    rw [ih (dictSet d k0 v0) hnd2 k]
    by_cases hkk : k0 = k
    · subst hkk
      rw [lookupField_eq_none t k0 hk0]
      have h2 : lookupField ((k0, v0) :: t) k0 = some v0 := by simp [lookupField]
      rw [h2, lookupField_dictSet, if_pos rfl]
      simp [Option.or]
    · have h2 : lookupField ((k0, v0) :: t) k = lookupField t k := by
        simp [lookupField, hkk]
      rw [h2, lookupField_dictSet, if_neg hkk]

/-! ## Claim theorems for the thread store -/

/-- C5 (code bug): appending a message that lacks a `role` field to an
existing thread fails with the bare `ValueError` of
`_create_message_data`, which the HTTP layer catch-all clause maps to
500 "Internal Server Error" — not to the `InvalidRequestError`/400 that
the same endpoint uses for its other input validation (empty or
non-list `messages`), and that the specification requires for every
malformed input body. -/
theorem handle_append_messages_missing_role :
    handle_append_messages
      { threads := [("t1".toList,
          ⟨"t1".toList, "thread".toList, 0, .jobj []⟩)],
        messages := [("t1".toList, [])] }
      "t1".toList
      [("messages".toList, .jarr [.jobj [("content".toList, .jstr "x".toList)]])]
      (fun _ => "m0".toList) 0
      = .error .valueError ∧
    append_messages_status .valueError = some 500 ∧
    append_messages_status .invalidRequest = some 400 ∧
    ThreadsError.valueError ≠ ThreadsError.invalidRequest :=
  ⟨rfl, rfl, rfl, by decide⟩

/-- C6: a successful `delete_thread` removes the thread record and its
message log together: afterwards both `get_thread` and `get_messages`
on that id fail with `ThreadNotFoundError` (`get_messages` checks the
`_threads` dictionary, so it raises rather than returning an empty
list), hence no message of a deleted thread is observable. -/
theorem delete_thread_not_found_after (st : ThreadStore) (tid : List Char)
    (b : Bool) (st' : ThreadStore) (h : delete_thread st tid = .ok (b, st')) :
    get_thread st' tid = .error .threadNotFound ∧
    get_messages st' tid = .error .threadNotFound := by
  unfold delete_thread at h
  cases hl : lookupField st.threads tid with
  | none =>
    rw [hl] at h
    exact absurd h (by simp)
  | some t =>
    rw [hl] at h
    simp only [Except.ok.injEq, Prod.mk.injEq] at h
    obtain ⟨hb, hst⟩ := h
    have hthreads : st'.threads = dictRemove st.threads tid := by
      rw [← hst]
      split <;> rfl
    have hnone : lookupField st'.threads tid = none := by
      rw [hthreads]
      exact lookupField_dictRemove st.threads tid
    constructor
    · unfold get_thread
      rw [hnone]
    · unfold get_messages
      rw [hnone]

/-- C6 witness: deleting a concrete thread that holds one message. -/
theorem delete_thread_not_found_after_witness :
    delete_thread
      { threads := [("t1".toList, ⟨"t1".toList, "thread".toList, 0, .jobj []⟩)],
        messages := [("t1".toList,
          [⟨"m0".toList, "t1".toList, 0, .jstr "user".toList, .jstr "hi".toList,
            .jnull, .jarr [], .jnull, .jarr [], .jobj []⟩])] }
      "t1".toList
      = .ok (true, ({ threads := [], messages := [] } : ThreadStore)) ∧
    (get_thread ({ threads := [], messages := [] } : ThreadStore) "t1".toList
        = .error .threadNotFound ∧
      get_messages ({ threads := [], messages := [] } : ThreadStore) "t1".toList
        = .error .threadNotFound) :=
  ⟨rfl, delete_thread_not_found_after
    { threads := [("t1".toList, ⟨"t1".toList, "thread".toList, 0, .jobj []⟩)],
      messages := [("t1".toList,
        [⟨"m0".toList, "t1".toList, 0, .jstr "user".toList, .jstr "hi".toList,
          .jnull, .jarr [], .jnull, .jarr [], .jobj []⟩])] }
    "t1".toList true { threads := [], messages := [] } rfl⟩

/-- C7: on an existing thread whose stored metadata is a dictionary,
`update_thread` merges the patch keys into that dictionary — the patch
wins on key collisions, keys absent from the patch keep their stored
values — and returns the updated record, which is also what the store
then holds for that id. -/
theorem update_thread_merges (st : ThreadStore) (tid : List Char) (t : ThreadData)
    (d p : List (List Char × JVal)) (ht : lookupField st.threads tid = some t)
    (hm : t.metadata = .jobj d) (hnd : (p.map Prod.fst).Nodup) :
    update_thread st tid (.jobj p)
      = .ok ({ t with metadata := .jobj (dictUpdate d p) },
          { st with threads :=
              dictSet st.threads tid { t with metadata := .jobj (dictUpdate d p) } }) ∧
    lookupField (dictSet st.threads tid
        { t with metadata := .jobj (dictUpdate d p) }) tid
      = some { t with metadata := .jobj (dictUpdate d p) } ∧
    ∀ k, lookupField (dictUpdate d p) k
      = (lookupField p k).or (lookupField d k) := by
  obtain ⟨tid0, obj0, ca0, meta0⟩ := t
  have hm2 : meta0 = .jobj d := hm
  subst hm2
  refine ⟨?_, ?_, ?_⟩
  · unfold update_thread
    rw [ht]
  · rw [lookupField_dictSet]
    simp
  · exact dictUpdate_lookup p d hnd

/-- C7 witness: patching `{"k2": "v2"}` onto stored metadata
`{"k1": "v1"}` yields `{"k1": "v1", "k2": "v2"}`. -/
theorem update_thread_merges_witness :
    dictUpdate [("k1".toList, JVal.jstr "v1".toList)]
        [("k2".toList, JVal.jstr "v2".toList)]
      = [("k1".toList, JVal.jstr "v1".toList), ("k2".toList, JVal.jstr "v2".toList)] ∧
    update_thread
      { threads := [("t1".toList,
          ⟨"t1".toList, "thread".toList, 0, .jobj [("k1".toList, .jstr "v1".toList)]⟩)],
        messages := [("t1".toList, [])] }
      "t1".toList (.jobj [("k2".toList, .jstr "v2".toList)])
      = .ok (⟨"t1".toList, "thread".toList, 0,
            .jobj (dictUpdate [("k1".toList, .jstr "v1".toList)]
              [("k2".toList, .jstr "v2".toList)])⟩,
          { threads := [("t1".toList,
              ⟨"t1".toList, "thread".toList, 0,
                .jobj (dictUpdate [("k1".toList, .jstr "v1".toList)]
                  [("k2".toList, .jstr "v2".toList)])⟩)],
            messages := [("t1".toList, [])] }) :=
  ⟨rfl,
    (update_thread_merges
      { threads := [("t1".toList,
          ⟨"t1".toList, "thread".toList, 0, .jobj [("k1".toList, .jstr "v1".toList)]⟩)],
        messages := [("t1".toList, [])] }
      "t1".toList
      ⟨"t1".toList, "thread".toList, 0, .jobj [("k1".toList, .jstr "v1".toList)]⟩
      [("k1".toList, .jstr "v1".toList)] [("k2".toList, .jstr "v2".toList)]
      rfl rfl (by decide)).1⟩

/-! ## Lemmas about the variable substitution -/

theorem identStart_not_space (c : Char) (h : isIdentStartChar c = true) :
    isSpaceChar c = false := by
  cases hs : isSpaceChar c
  · rfl
  · exfalso
    simp only [isSpaceChar, Bool.or_eq_true, decide_eq_true_eq] at hs
    rcases hs with ((((rfl | rfl) | rfl) | rfl) | rfl) | rfl <;> revert h <;> decide

theorem takeWhile_append_all (p : Char → Bool) (l l2 : List Char)
    (h : l.all p = true) : (l ++ l2).takeWhile p = l ++ l2.takeWhile p := by
  induction l with
  | nil => simp
  | cons c t ih =>
    simp only [List.all_cons, Bool.and_eq_true] at h
    simp [List.takeWhile_cons, h.1, ih h.2]

theorem dropWhile_append_all (p : Char → Bool) (l l2 : List Char)
    (h : l.all p = true) : (l ++ l2).dropWhile p = l2.dropWhile p := by
  induction l with
  | nil => simp
  | cons c t ih =>
    simp only [List.all_cons, Bool.and_eq_true] at h
    simp [List.dropWhile_cons, h.1, ih h.2]

theorem tryMatchPlaceholder_exact (c0 : Char) (t0 : List Char)
    (hstart : isIdentStartChar c0 = true) (hall : t0.all isIdentChar = true) :
    tryMatchPlaceholder
        (lbraceChar :: lbraceChar :: ((c0 :: t0) ++ [rbraceChar, rbraceChar]))
      = some (lbraceChar :: lbraceChar :: ((c0 :: t0) ++ [rbraceChar, rbraceChar]),
          c0 :: t0, []) := by
  have h0s : isSpaceChar c0 = false := identStart_not_space c0 hstart
  have hdw1 : ((c0 :: t0) ++ [rbraceChar, rbraceChar]).dropWhile isSpaceChar
      = c0 :: (t0 ++ [rbraceChar, rbraceChar]) := by
    simp [List.dropWhile_cons, h0s]
  have htw1 : ((c0 :: t0) ++ [rbraceChar, rbraceChar]).takeWhile isSpaceChar = [] := by
    simp [List.takeWhile_cons, h0s]
  have hid : ([rbraceChar, rbraceChar] : List Char).dropWhile isIdentChar
      = [rbraceChar, rbraceChar] := by decide
  have hdw2 : (t0 ++ [rbraceChar, rbraceChar]).dropWhile isIdentChar
      = [rbraceChar, rbraceChar] := by
    rw [dropWhile_append_all isIdentChar t0 _ hall, hid]
  have hid2 : ([rbraceChar, rbraceChar] : List Char).takeWhile isIdentChar = [] := by
    decide
  have htw2 : (t0 ++ [rbraceChar, rbraceChar]).takeWhile isIdentChar = t0 := by
    rw [takeWhile_append_all isIdentChar t0 _ hall, hid2, List.append_nil]
  have hdw3 : ([rbraceChar, rbraceChar] : List Char).dropWhile isSpaceChar
      = [rbraceChar, rbraceChar] := by decide
  have htw3 : ([rbraceChar, rbraceChar] : List Char).takeWhile isSpaceChar = [] := by
    decide
  simp [tryMatchPlaceholder, List.dropWhile_cons, List.takeWhile_cons, h0s, hstart,
    hdw2, htw2, hdw3, htw3]

theorem substituteAux_nil (vars : List (List Char × JVal)) (fuel : Nat) :
    substituteAux vars fuel [] = [] := by
  cases fuel <;> rfl

theorem substituteAux_placeholder (vars : List (List Char × JVal)) (c0 : Char)
    (t0 : List Char) (hstart : isIdentStartChar c0 = true)
    (hall : t0.all isIdentChar = true) (fuel : Nat) :
    substituteAux vars (fuel + 1)
        (lbraceChar :: lbraceChar :: ((c0 :: t0) ++ [rbraceChar, rbraceChar]))
      = replace_variable vars (c0 :: t0)
          (lbraceChar :: lbraceChar :: ((c0 :: t0) ++ [rbraceChar, rbraceChar])) := by
  simp only [substituteAux, tryMatchPlaceholder_exact c0 t0 hstart hall,
    substituteAux_nil, List.append_nil]

/-! ## Claim theorem for the variable substitution -/

/-- C9: `substitute_variables` replaces a placeholder whose identifier
is bound by the string form of the bound value — the empty string when
the value is null — and leaves a placeholder whose identifier is absent
from the mapping as the literal, unmodified placeholder; in particular
the two scenario equalities of the specification hold. -/
theorem substitute_variables_spec (nm : List Char) (vars : List (List Char × JVal))
    (hv : validIdent nm = true) (hvars : vars ≠ []) :
    substitute_variables (lbraceChar :: lbraceChar :: (nm ++ [rbraceChar, rbraceChar])) vars
      = replace_variable vars nm
          (lbraceChar :: lbraceChar :: (nm ++ [rbraceChar, rbraceChar])) ∧
    (lookupField vars nm = some .jnull →
      substitute_variables (lbraceChar :: lbraceChar :: (nm ++ [rbraceChar, rbraceChar])) vars
        = []) ∧
    (lookupField vars nm = none →
      substitute_variables (lbraceChar :: lbraceChar :: (nm ++ [rbraceChar, rbraceChar])) vars
        = lbraceChar :: lbraceChar :: (nm ++ [rbraceChar, rbraceChar])) ∧
    (∀ s, lookupField vars nm = some (.jstr s) →
      substitute_variables (lbraceChar :: lbraceChar :: (nm ++ [rbraceChar, rbraceChar])) vars
        = s) ∧
    substitute_variables "Hi \x7b\x7bname\x7d\x7d".toList [("name".toList, .jnull)]
      = "Hi ".toList ∧
    substitute_variables "Hi \x7b\x7bname\x7d\x7d \x7b\x7bx\x7d\x7d".toList
        [("name".toList, .jstr "Bob".toList)]
      = "Hi Bob \x7b\x7bx\x7d\x7d".toList := by
  obtain ⟨c0, t0, rfl⟩ : ∃ c0 t0, nm = c0 :: t0 := by
    cases nm with
    | nil => simp [validIdent] at hv
    | cons a b => exact ⟨a, b, rfl⟩
  simp only [validIdent, Bool.and_eq_true] at hv
  obtain ⟨hstart, hall⟩ := hv
  have hvempty : vars.isEmpty = false := by
    cases vars with
    | nil => exact absurd rfl hvars
    | cons a b => rfl
  have hmain : substitute_variables
      (lbraceChar :: lbraceChar :: ((c0 :: t0) ++ [rbraceChar, rbraceChar])) vars
      = replace_variable vars (c0 :: t0)
          (lbraceChar :: lbraceChar :: ((c0 :: t0) ++ [rbraceChar, rbraceChar])) := by
    unfold substitute_variables
    rw [if_neg (by simp [hvempty])]
    have hlen : (lbraceChar :: lbraceChar :: ((c0 :: t0) ++ [rbraceChar, rbraceChar])).length
        = t0.length + 4 + 1 := by
      simp [List.length_cons, List.length_append]
    rw [hlen]
    exact substituteAux_placeholder vars c0 t0 hstart hall (t0.length + 4)
  refine ⟨hmain, ?_, ?_, ?_, by decide, by decide⟩
  · intro h
    rw [hmain]
    simp [replace_variable, h]
  · intro h
    rw [hmain]
    simp [replace_variable, h]
  · intro s h
    rw [hmain]
    simp [replace_variable, h, pyStr]

/-- C9 witness: the bound-identifier case at a concrete input. -/
theorem substitute_variables_spec_witness :
    (validIdent "name".toList = true ∧
      ([("name".toList, JVal.jstr "Bob".toList)] : List (List Char × JVal)) ≠ []) ∧
    substitute_variables
        (lbraceChar :: lbraceChar :: ("name".toList ++ [rbraceChar, rbraceChar]))
        [("name".toList, .jstr "Bob".toList)]
      = replace_variable [("name".toList, .jstr "Bob".toList)] "name".toList
          (lbraceChar :: lbraceChar :: ("name".toList ++ [rbraceChar, rbraceChar])) :=
  ⟨⟨by decide, List.cons_ne_nil _ _⟩,
    (substitute_variables_spec "name".toList [("name".toList, .jstr "Bob".toList)]
      (by decide) (List.cons_ne_nil _ _)).1⟩

/-! ## Lemmas about the SSE serialization -/

theorem char_not_mem_append {c : Char} {a b : List Char} (ha : c ∉ a) (hb : c ∉ b) :
    c ∉ a ++ b := by
  simp only [List.mem_append, not_or]
  exact ⟨ha, hb⟩

theorem digitChar_ne_newline (d : Nat) : digitChar d ≠ '\n' := by
  unfold digitChar
  split <;> decide

theorem hexDigitChar_ne_newline (d : Nat) : hexDigitChar d ≠ '\n' := by
  unfold hexDigitChar
  split <;> decide

theorem natCharsAux_no_newline (fuel : Nat) : ∀ n, ('\n' : Char) ∉ natCharsAux fuel n := by
  induction fuel with
  | zero =>
    intro n
    simp [natCharsAux]
  | succ fuel ih =>
    intro n
    unfold natCharsAux
    split
    · simp only [List.mem_singleton]
      exact fun h => digitChar_ne_newline n h.symm
    · refine char_not_mem_append (ih (n / 10)) ?_
      simp only [List.mem_singleton]
      exact fun h => digitChar_ne_newline (n % 10) h.symm

theorem natChars_no_newline (n : Nat) : ('\n' : Char) ∉ natChars n :=
  natCharsAux_no_newline (n + 1) n

theorem hex4_no_newline (n : Nat) : ('\n' : Char) ∉ hex4 n := by
  intro h
  simp only [hex4, List.mem_cons, List.not_mem_nil, or_false] at h
  rcases h with h | h | h | h
  · exact hexDigitChar_ne_newline _ h.symm
  · exact hexDigitChar_ne_newline _ h.symm
  · exact hexDigitChar_ne_newline _ h.symm
  · exact hexDigitChar_ne_newline _ h.symm

theorem uPiece_no_newline (n : Nat) : ('\n' : Char) ∉ '\\' :: 'u' :: hex4 n := by
  intro h
  simp only [List.mem_cons] at h
  rcases h with h | h | h
  · exact absurd h (by decide)
  · exact absurd h (by decide)
  · exact hex4_no_newline n h

theorem uEscape_no_newline (n : Nat) : ('\n' : Char) ∉ uEscape n := by
  unfold uEscape
  split
  · exact uPiece_no_newline n
  · exact char_not_mem_append (uPiece_no_newline _) (uPiece_no_newline _)

theorem escapeChar_no_newline (c : Char) : ('\n' : Char) ∉ escapeChar c := by
  unfold escapeChar
  split_ifs with h1 h2 h3 h4 h5 h6 h7 h8
  · decide
  · decide
  · decide
  · decide
  · decide
  · decide
  · decide
  · exact uEscape_no_newline _
  · simp only [List.mem_singleton]
    exact fun hc => h3 hc.symm

theorem jsonString_no_newline (s : List Char) : ('\n' : Char) ∉ jsonString s := by
  unfold jsonString
  intro h
  rcases List.mem_cons.mp h with h1 | h2
  · exact absurd h1 (by decide)
  · rcases List.mem_append.mp h2 with h3 | h4
    · rcases List.mem_flatMap.mp h3 with ⟨c, -, hc⟩
      exact escapeChar_no_newline c hc
    · exact absurd h4 (by decide)

theorem dumpsFirstChunk_no_newline (completionId : List Char) (created : Nat)
    (fp : List Char) : ('\n' : Char) ∉ dumpsFirstChunk completionId created fp := by
  unfold dumpsFirstChunk
  simp only [List.mem_append, not_or]
  repeat' apply And.intro
  all_goals first
    | exact jsonString_no_newline _
    | exact natChars_no_newline _
    | decide

theorem dumpsContentChunk_no_newline (completionId : List Char) (created : Nat)
    (fp chunk : List Char) :
    ('\n' : Char) ∉ dumpsContentChunk completionId created fp chunk := by
  unfold dumpsContentChunk
  simp only [List.mem_append, not_or]
  repeat' apply And.intro
  all_goals first
    | exact jsonString_no_newline _
    | exact natChars_no_newline _
    | decide

theorem dumpsFinishChunk_no_newline (completionId : List Char) (created : Nat)
    (fp : List Char) : ('\n' : Char) ∉ dumpsFinishChunk completionId created fp := by
  unfold dumpsFinishChunk
  simp only [List.mem_append, not_or]
  repeat' apply And.intro
  all_goals first
    | exact jsonString_no_newline _
    | exact natChars_no_newline _
    | decide

theorem dumpsUsageChunk_no_newline (completionId : List Char) (created : Nat)
    (fp : List Char) (promptTokens completionTokens totalTokens : Nat) :
    ('\n' : Char) ∉ dumpsUsageChunk completionId created fp
      promptTokens completionTokens totalTokens := by
  unfold dumpsUsageChunk
  simp only [List.mem_append, not_or]
  repeat' apply And.intro
  all_goals first
    | exact jsonString_no_newline _
    | exact natChars_no_newline _
    | decide

theorem calculate_prompt_tokens_eq (msgs : List JVal) (contents : List (List Char))
    (h : List.Forall₂ (fun (m : JVal) (s : List Char) =>
      ∃ fields, m = .jobj fields ∧
        lookupField fields "content".toList = some (.jstr s)) msgs contents) :
    calculate_prompt_tokens msgs = (contents.map wordCount).sum := by
  induction h with
  | nil => rfl
  | cons hrel htail ih =>
    rename_i m s l1 l2
    obtain ⟨fields, rfl, hc⟩ := hrel
    simp only [calculate_prompt_tokens, List.map_cons, List.sum_cons] at ih ⊢
    have hh : promptTokensOfMessage (.jobj fields) = wordCount s := by
      simp only [promptTokensOfMessage]
      rw [hc]
      rfl
    rw [hh, ih]

/-! ## Claim theorems for the SSE stream and the pipe gateway -/

/-- C3: for a non-empty message list (dict messages with string
contents) and any valid chunk draw, the emitted SSE sequence is
exactly: the role-announce chunk (assistant role, empty content delta),
one content-delta chunk per planned fragment in order, the finish chunk
(empty delta, `finish_reason` `"stop"`), the usage chunk (empty choice
list, `prompt_tokens` the sum of the whitespace word counts of the
message contents, `completion_tokens` the whitespace word count of the
synthesized reply, `total_tokens` their sum), and the literal
terminator; every frame is `data: ` + a newline-free body + a blank
line, the terminator being `data: [DONE]` + a blank line. -/
theorem generate_sse_stream_spec (msgs : List JVal) (contents : List (List Char))
    (completionId fp : List Char) (created draw : Nat)
    (hne : msgs ≠ []) (hdraw : draw ≤ MAX_CHUNKS - MIN_CHUNKS)
    (hmc : List.Forall₂ (fun (m : JVal) (s : List Char) =>
      ∃ fields, m = .jobj fields ∧
        lookupField fields "content".toList = some (.jstr s)) msgs contents) :
    generate_sse_stream msgs completionId created fp draw
      = sseLine (dumpsFirstChunk completionId created fp)
        :: (generate_random_chunks (get_sample_response msgs)
              MIN_CHUNKS MAX_CHUNKS draw).map
            (fun chunk => sseLine (dumpsContentChunk completionId created fp chunk))
        ++ [sseLine (dumpsFinishChunk completionId created fp),
            sseLine (dumpsUsageChunk completionId created fp
              ((contents.map wordCount).sum)
              (wordCount (get_sample_response msgs))
              ((contents.map wordCount).sum
                + wordCount (get_sample_response msgs))),
            "data: [DONE]\n\n".toList] ∧
    ∀ e ∈ generate_sse_stream msgs completionId created fp draw,
      ∃ body, e = "data: ".toList ++ body ++ "\n\n".toList ∧
        ('\n' : Char) ∉ body := by
  constructor
  · unfold generate_sse_stream
    rw [calculate_prompt_tokens_eq msgs contents hmc]
  · intro e he
    unfold generate_sse_stream at he
    rcases List.mem_cons.mp he with rfl | he2
    · exact ⟨dumpsFirstChunk completionId created fp, rfl,
        dumpsFirstChunk_no_newline _ _ _⟩
    · rcases List.mem_append.mp he2 with he3 | he4
      · rcases List.mem_map.mp he3 with ⟨chunk, -, rfl⟩
        exact ⟨dumpsContentChunk completionId created fp chunk, rfl,
          dumpsContentChunk_no_newline _ _ _ _⟩
      · rcases List.mem_cons.mp he4 with rfl | he5
        · exact ⟨dumpsFinishChunk completionId created fp, rfl,
            dumpsFinishChunk_no_newline _ _ _⟩
        · rcases List.mem_cons.mp he5 with rfl | he6
          · exact ⟨dumpsUsageChunk completionId created fp
                (calculate_prompt_tokens msgs)
                (wordCount (get_sample_response msgs))
                (calculate_prompt_tokens msgs
                  + wordCount (get_sample_response msgs)), rfl,
              dumpsUsageChunk_no_newline _ _ _ _ _ _⟩
          · rcases List.mem_cons.mp he6 with rfl | he7
            · exact ⟨"[DONE]".toList, by decide, by decide⟩
            · exact absurd he7 (List.not_mem_nil _)

/-- C3 witness: a one-message run of the stream theorem. -/
theorem generate_sse_stream_spec_witness :
    (([JVal.jobj [("role".toList, JVal.jstr "user".toList),
        ("content".toList, JVal.jstr "hello".toList)]] : List JVal) ≠ [] ∧
      (0 : Nat) ≤ MAX_CHUNKS - MIN_CHUNKS) ∧
    generate_sse_stream
        [.jobj [("role".toList, .jstr "user".toList),
          ("content".toList, .jstr "hello".toList)]]
        "chatcmpl-1".toList 0 "fp_0".toList 0
      = sseLine (dumpsFirstChunk "chatcmpl-1".toList 0 "fp_0".toList)
        :: (generate_random_chunks
              (get_sample_response
                [.jobj [("role".toList, .jstr "user".toList),
                  ("content".toList, .jstr "hello".toList)]])
              MIN_CHUNKS MAX_CHUNKS 0).map
            (fun chunk =>
              sseLine (dumpsContentChunk "chatcmpl-1".toList 0 "fp_0".toList chunk))
        ++ [sseLine (dumpsFinishChunk "chatcmpl-1".toList 0 "fp_0".toList),
            sseLine (dumpsUsageChunk "chatcmpl-1".toList 0 "fp_0".toList
              ((["hello".toList].map wordCount).sum)
              (wordCount (get_sample_response
                [.jobj [("role".toList, .jstr "user".toList),
                  ("content".toList, .jstr "hello".toList)]]))
              ((["hello".toList].map wordCount).sum
                + wordCount (get_sample_response
                  [.jobj [("role".toList, .jstr "user".toList),
                    ("content".toList, .jstr "hello".toList)]]))),
            "data: [DONE]\n\n".toList] :=
  ⟨⟨List.cons_ne_nil _ _, by decide⟩,
    (generate_sse_stream_spec
      [.jobj [("role".toList, .jstr "user".toList),
        ("content".toList, .jstr "hello".toList)]]
      ["hello".toList] "chatcmpl-1".toList "fp_0".toList 0 0
      (List.cons_ne_nil _ _) (by decide)
      (List.Forall₂.cons
        ⟨[("role".toList, .jstr "user".toList),
          ("content".toList, .jstr "hello".toList)], rfl, rfl⟩
        List.Forall₂.nil)).1⟩

/-- C8: with a list-or-absent `messages` field and a string-or-absent
`threadId` field, `handle_run_pipe` fails `InvalidPipeRequestError`
exactly when `messages` is absent or empty; on success — the handler
never consults the thread store, so any supplied `threadId` is accepted
— the response headers of the streaming and of the non-streaming branch
alike carry `lb-thread-id` bound to the caller-supplied `threadId`,
or to the freshly drawn id when none was supplied. -/
theorem handle_run_pipe_spec (requestData : List (List Char × JVal))
    (msgsOpt : Option (List JVal)) (tidOpt : Option (List Char))
    (freshThreadId completionId fp : List Char) (created draw : Nat)
    (hm : lookupField requestData "messages".toList = msgsOpt.map .jarr)
    (ht : lookupField requestData "threadId".toList
      = tidOpt.map (fun s => .jstr s)) :
    ((handle_run_pipe requestData freshThreadId completionId fp created draw
        = .error .invalidPipeRequest) ↔ (msgsOpt = none ∨ msgsOpt = some [])) ∧
    ∀ res, handle_run_pipe requestData freshThreadId completionId fp created draw
        = .ok res →
      lookupField (headersOf res) "lb-thread-id".toList
        = some (.jstr (tidOpt.getD freshThreadId)) := by
  have htid : ((tidOpt.map (fun s => JVal.jstr s)).getD (.jstr freshThreadId))
      = .jstr (tidOpt.getD freshThreadId) := by
    cases tidOpt <;> rfl
  unfold handle_run_pipe
  rw [hm, ht, htid]
  cases msgsOpt with
  | none =>
    constructor
    · simp [jTruthy]
    · intro res h
      simp [jTruthy] at h
  | some msgs =>
    cases msgs with
    | nil =>
      constructor
      · simp [jTruthy]
      · intro res h
        simp [jTruthy] at h
    | cons m rest =>
      constructor
      · constructor
        · intro h
          exfalso
          simp only [Option.map_some', Option.getD_some, jTruthy,
            List.isEmpty_cons, Bool.not_false, Bool.not_true,
            Bool.false_eq_true, if_false] at h
          split at h <;> simp at h
        · intro h
          rcases h with h | h
          · exact Option.noConfusion h
          · rw [Option.some.injEq] at h
            exact List.noConfusion h
      · intro res h
        simp only [Option.map_some', Option.getD_some, jTruthy,
          List.isEmpty_cons, Bool.not_false, Bool.not_true,
          Bool.false_eq_true, if_false] at h
        split at h <;>
          (injection h with h2
           subst h2
           rfl)

/-- C8 witness: a concrete request that supplies both `messages` and
`threadId`. -/
theorem handle_run_pipe_spec_witness :
    (lookupField
        [("messages".toList,
            JVal.jarr [.jobj [("role".toList, .jstr "user".toList),
              ("content".toList, .jstr "hi".toList)]]),
          ("stream".toList, JVal.jbool true),
          ("threadId".toList, JVal.jstr "t-9".toList)]
        "messages".toList
      = (some [JVal.jobj [("role".toList, .jstr "user".toList),
          ("content".toList, .jstr "hi".toList)]]).map JVal.jarr ∧
      lookupField
        [("messages".toList,
            JVal.jarr [.jobj [("role".toList, .jstr "user".toList),
              ("content".toList, .jstr "hi".toList)]]),
          ("stream".toList, JVal.jbool true),
          ("threadId".toList, JVal.jstr "t-9".toList)]
        "threadId".toList
      = (some "t-9".toList).map (fun s => JVal.jstr s)) ∧
    ((handle_run_pipe
        [("messages".toList,
            JVal.jarr [.jobj [("role".toList, .jstr "user".toList),
              ("content".toList, .jstr "hi".toList)]]),
          ("stream".toList, JVal.jbool true),
          ("threadId".toList, JVal.jstr "t-9".toList)]
        "fresh-id".toList "chatcmpl-2".toList "fp_1".toList 0 0
        = .error .invalidPipeRequest)
      ↔ ((some [JVal.jobj [("role".toList, .jstr "user".toList),
            ("content".toList, .jstr "hi".toList)]] : Option (List JVal)) = none ∨
          (some [JVal.jobj [("role".toList, .jstr "user".toList),
            ("content".toList, .jstr "hi".toList)]] : Option (List JVal)) = some [])) :=
  ⟨⟨rfl, rfl⟩,
    (handle_run_pipe_spec
      [("messages".toList,
          JVal.jarr [.jobj [("role".toList, .jstr "user".toList),
            ("content".toList, .jstr "hi".toList)]]),
        ("stream".toList, JVal.jbool true),
        ("threadId".toList, JVal.jstr "t-9".toList)]
      (some [JVal.jobj [("role".toList, .jstr "user".toList),
        ("content".toList, .jstr "hi".toList)]])
      (some "t-9".toList)
      "fresh-id".toList "chatcmpl-2".toList "fp_1".toList 0 0 rfl rfl).1⟩
